import Mathlib

/-!
Shallow embedding of the SWE-Alpha/backend e-commerce controllers
(src/controllers/orderController.ts, productController.ts, authController.ts
and the cart handlers) as pure Lean functions over an explicit database
state, together with theorems settling the frozen claims about them.

Conventions: record ids are `Nat` (standing for the cuid strings), money is
`Int` (amounts in minor units: the covered handlers only ever add and
multiply prices, never divide them), stock is `Option Int` (`none` = SQL
NULL = untracked), quantities are `Int`.  Request-supplied fields are `Option`
parameters; generated values (order numbers, fresh row ids) are passed in as
parameters since their generation is effectful in the source.
-/

namespace Shop

inductive PStatus
  | DRAFT
  | ACTIVE
  | ARCHIVED
  | OUT_OF_STOCK
deriving DecidableEq, Repr

structure Product where
  id : Nat
  name : String
  price : Int
  stock : Option Int
  status : PStatus
deriving DecidableEq, Repr

structure CartItem where
  id : Nat
  productId : Nat
  quantity : Int
  price : Int
deriving DecidableEq, Repr

structure Cart where
  id : Nat
  userId : Nat
  items : List CartItem
  subtotal : Int
deriving DecidableEq, Repr

structure OrderItem where
  productId : Nat
  name : String
  quantity : Int
  price : Int
  total : Int
deriving DecidableEq, Repr

structure Order where
  id : Nat
  orderNumber : String
  userId : Nat
  customerName : String
  subtotal : Int
  tax : Int
  shipping : Int
  discount : Int
  total : Int
  items : List OrderItem
deriving DecidableEq, Repr

structure DB where
  products : List Product
  carts : List Cart
  orders : List Order
deriving DecidableEq, Repr

/-- `prisma.product.findUnique({ where: { id } })`. -/
def findProduct (db : DB) (pid : Nat) : Option Product :=
  db.products.find? fun p => p.id == pid

/-- `prisma.cart.findUnique({ where: { userId } })`. -/
def findCart (db : DB) (uid : Nat) : Option Cart :=
  db.carts.find? fun c => c.userId == uid

/-- `prisma.cart.findUnique({ where: { id } })`. -/
def findCartById (db : DB) (cid : Nat) : Option Cart :=
  db.carts.find? fun c => c.id == cid

/-- A cart item joined with its product row, as produced by the Prisma
`include: { items: { include: { product: true } } }` load in `createOrder`. -/
structure LoadedItem where
  item : CartItem
  product : Product
deriving DecidableEq, Repr

/-- Resolve each cart item's product relation; `none` when a product row is
missing (a broken foreign key, which in the source would surface as a thrown
error caught by the handler's catch-all). -/
def loadItems (db : DB) : List CartItem → Option (List LoadedItem)
  | [] => some []
  | it :: rest =>
    match findProduct db it.productId with
    | none => none
    | some p => (loadItems db rest).map fun ls => ⟨it, p⟩ :: ls

inductive CreateOrderResult
  | emptyCart
  | productNotActive (name : String)
  | insufficientStock (name : String)
  | serverError
  | created (o : Order)
deriving DecidableEq, Repr

/-- The per-item validation of `createOrder`'s loop body: status must be
ACTIVE, and if stock is tracked (non-null) it must cover the quantity. -/
def itemIssue (li : LoadedItem) : Option CreateOrderResult :=
  if li.product.status ≠ PStatus.ACTIVE then
    some (.productNotActive li.product.name)
  else
    match li.product.stock with
    | some s => if s < li.item.quantity then some (.insufficientStock li.product.name) else none
    | none => none

/-- The `for (const it of cart.items)` validation loop: returns the first
failing item's error. -/
def firstIssue : List LoadedItem → Option CreateOrderResult
  | [] => none
  | li :: rest =>
    match itemIssue li with
    | some e => some e
    | none => firstIssue rest

/-- `cart.items.reduce((acc, it) => acc + Number(it.price) * it.quantity, 0)`:
the subtotal uses the price snapshot stored on the cart item. -/
def cartSubtotal (items : List CartItem) : Int :=
  items.foldl (fun acc it => acc + it.price * it.quantity) 0

/-- The `items.create` payload of `prisma.order.create`: one OrderItem per
cart item, copying name from the product and price from the cart item. -/
def mkOrderItems (loaded : List LoadedItem) : List OrderItem :=
  loaded.map fun li =>
    { productId := li.item.productId
      name := li.product.name
      quantity := li.item.quantity
      price := li.item.price
      total := li.item.price * li.item.quantity }

/-- JS `str || default` for an optional request string field. -/
def jsStrOr (d : String) : Option String → String
  | none => d
  | some s => if s.isEmpty then d else s

/-- JS `it.product.stock || 0` (null coalesces to 0; `0 || 0 = 0`). -/
def stockOr0 : Option Int → Int
  | none => 0
  | some s => s

/-- The Order record assembled by `prisma.order.create` in `createOrder`:
tax, shipping and discount components of the total are zero, the `shipping`
field itself echoes `req.body.shipping || 0`. -/
def mkOrder (uid : Nat) (onum : String) (oid : Nat) (ship : Option Int)
    (cname : Option String) (items : List CartItem) (loaded : List LoadedItem) : Order :=
  { id := oid
    orderNumber := onum
    userId := uid
    customerName := jsStrOr "User" cname
    subtotal := cartSubtotal items
    tax := 0
    shipping := ship.getD 0
    discount := 0
    total := cartSubtotal items + 0 + 0 - 0
    items := mkOrderItems loaded }

/-- One `prisma.product.update` of the stock-decrement loop:
`stock: Math.max(0, (it.product.stock || 0) - it.quantity)`. -/
def updateStock (ps : List Product) (pid : Nat) (newStock : Int) : List Product :=
  ps.map fun p => if p.id == pid then { p with stock := some newStock } else p

/-- The `Promise.all` of stock decrements, each computed from the product
snapshot read when the cart was loaded. -/
def decrementStocks (ps : List Product) : List LoadedItem → List Product
  | [] => ps
  | li :: rest =>
    decrementStocks
      (updateStock ps li.item.productId (max 0 (stockOr0 li.product.stock - li.item.quantity)))
      rest

/-- `prisma.cartItem.deleteMany({ where: { cartId } })`. -/
def deleteCartItems (cs : List Cart) (cid : Nat) : List Cart :=
  cs.map fun c => if c.id == cid then { c with items := [] } else c

/-- `prisma.cart.update({ where: { id } , data: { subtotal } })`. -/
def setCartSubtotal (cs : List Cart) (cid : Nat) (v : Int) : List Cart :=
  cs.map fun c => if c.id == cid then { c with subtotal := v } else c

/-- `createOrder` from src/controllers/orderController.ts: load the cart with
items and product snapshots, reject empty carts, validate status/stock per
item, persist the order with its items, decrement stock floored at zero,
then delete the cart items and reset the cart subtotal. -/
def createOrder (db : DB) (uid : Nat) (onum : String) (oid : Nat)
    (ship : Option Int) (cname : Option String) : CreateOrderResult × DB :=
  match findCart db uid with
  | none => (.emptyCart, db)
  | some cart =>
    if cart.items.length = 0 then (.emptyCart, db)
    else
      match loadItems db cart.items with
      | none => (.serverError, db)
      | some loaded =>
        match firstIssue loaded with
        | some e => (e, db)
        | none =>
          let order := mkOrder uid onum oid ship cname cart.items loaded
          let db1 : DB := { db with orders := db.orders ++ [order] }
          let db2 : DB := { db1 with products := decrementStocks db1.products loaded }
          let db3 : DB := { db2 with carts := setCartSubtotal (deleteCartItems db2.carts cart.id) cart.id 0 }
          (.created order, db3)

/-- Every cart row carrying the given id has no items and zero subtotal. -/
def cartsClearedB (db : DB) (cid : Nat) : Bool :=
  db.carts.all fun c => !(c.id == cid) || (c.items.isEmpty && decide (c.subtotal = 0))

inductive OrderGetResult
  | notFound
  | ok (o : Order)
deriving DecidableEq, Repr

/-- `getOrderById`: `prisma.order.findFirst({ where: { id, userId } })`,
404 when no order matches both the id and the requesting user. -/
def getOrderById (db : DB) (uid : Nat) (oid : Nat) : OrderGetResult :=
  match db.orders.find? (fun o => o.id == oid && o.userId == uid) with
  | none => .notFound
  | some o => .ok o

/-- The user id inside a successful `getOrderById` payload. -/
def ownerOf : OrderGetResult → Option Nat
  | .notFound => none
  | .ok o => some o.userId

/-- The order id inside a successful `getOrderById` payload. -/
def orderIdOf : OrderGetResult → Option Nat
  | .notFound => none
  | .ok o => some o.id

inductive CartResult
  | badRequest (msg : String)
  | notFound (msg : String)
  | serverError
  | ok (cart : Option Cart) (msg : String)
deriving DecidableEq, Repr

/-- The cart payload of a successful cart-mutation response. -/
def okCart : CartResult → Option Cart
  | .ok (some c) _ => some c
  | _ => none

/-- `ensureCart`: get-or-create of the user's single cart row; the fresh row
id is a parameter (cuid generation is external). -/
def ensureCart (db : DB) (uid : Nat) (newCartId : Nat) : Cart × DB :=
  match findCart db uid with
  | some c => (c, db)
  | none =>
    let c : Cart := { id := newCartId, userId := uid, items := [], subtotal := 0 }
    (c, { db with carts := db.carts ++ [c] })

/-- `recalcCart`: re-read all current items of the cart, sum price times
quantity, persist the subtotal on the cart row. -/
def recalcCart (db : DB) (cid : Nat) : DB :=
  { db with
    carts := db.carts.map fun c =>
      if c.id == cid then { c with subtotal := cartSubtotal c.items } else c }

/-- JS `Number(quantity || 1)` in `addItem` (0/undefined coalesce to 1). -/
def qtyOr1 : Option Int → Int
  | none => 1
  | some q => if q == 0 then 1 else q

/-- JS `product.stock !== null && product.stock < q`. -/
def stockBelow (stock : Option Int) (q : Int) : Bool :=
  match stock with
  | some s => decide (s < q)
  | none => false

/-- `prisma.cartItem.update({ where: { id }, data: { quantity, price } })`
(global row update by cart-item id). -/
def updateCartItemRow (db : DB) (itemId : Nat) (q : Int) (price : Int) : DB :=
  { db with
    carts := db.carts.map fun c =>
      { c with
        items := c.items.map fun it =>
          if it.id == itemId then { it with quantity := q, price := price } else it } }

/-- `prisma.cartItem.create` for a cart. -/
def createCartItemRow (db : DB) (cid : Nat) (it : CartItem) : DB :=
  { db with
    carts := db.carts.map fun c =>
      if c.id == cid then { c with items := c.items ++ [it] } else c }

/-- `addItem`: validate the product (exists, ACTIVE, stock covers the
requested quantity), ensure the cart, then merge into an existing row for
the same product — re-checking stock against the combined quantity — or
create a new row; finally recompute the subtotal and return the cart. -/
def addItem (db : DB) (uid : Nat) (productId? : Option Nat) (quantity? : Option Int)
    (newCartId newItemId : Nat) : CartResult × DB :=
  match productId? with
  | none => (.badRequest "productId required", db)
  | some pid =>
    let qty := max 1 (qtyOr1 quantity?)
    match findProduct db pid with
    | none => (.notFound "product not found", db)
    | some product =>
      if product.status ≠ PStatus.ACTIVE then (.badRequest "product not active", db)
      else if stockBelow product.stock qty then
        (.badRequest "insufficient stock", db)
      else
        let cdb := ensureCart db uid newCartId
        match cdb.1.items.find? (fun it => it.productId == pid) with
        | some existing =>
          let newQty := existing.quantity + qty
          if stockBelow product.stock newQty then
            (.badRequest "insufficient stock", cdb.2)
          else
            let db3 := recalcCart (updateCartItemRow cdb.2 existing.id newQty product.price) cdb.1.id
            (.ok (findCartById db3 cdb.1.id) "item added", db3)
        | none =>
          let db3 := recalcCart
            (createCartItemRow cdb.2 cdb.1.id
              { id := newItemId, productId := pid, quantity := qty, price := product.price })
            cdb.1.id
          (.ok (findCartById db3 cdb.1.id) "item added", db3)

/-- `prisma.cartItem.findUnique({ where: { id }, include: { cart: true } })`:
locate the cart item row and its owning cart. -/
def findItemGlobal : List Cart → Nat → Option (Cart × CartItem)
  | [], _ => none
  | c :: rest, itemId =>
    match c.items.find? (fun it => it.id == itemId) with
    | some it => some (c, it)
    | none => findItemGlobal rest itemId

/-- `updateItem`: quantity must be a number at least 1, the item must exist
and belong to the requesting user's cart, stock must cover the new
quantity; then update the row's quantity and recompute the subtotal. -/
def updateItem (db : DB) (uid : Nat) (itemId? : Option Nat) (quantity? : Option Int) :
    CartResult × DB :=
  match itemId?, quantity? with
  | some itemId, some qty =>
    if qty < 1 then (.badRequest "valid quantity required", db)
    else
      match findItemGlobal db.carts itemId with
      | none => (.notFound "cart item not found", db)
      | some ci =>
        if ci.1.userId ≠ uid then (.notFound "cart item not found", db)
        else
          match findProduct db ci.2.productId with
          | none => (.serverError, db)
          | some product =>
            if stockBelow product.stock qty then
              (.badRequest "insufficient stock", db)
            else
              let db2 : DB := { db with
                carts := db.carts.map fun c =>
                  { c with
                    items := c.items.map fun it =>
                      if it.id == itemId then { it with quantity := qty } else it } }
              let db3 := recalcCart db2 ci.1.id
              (.ok (findCartById db3 ci.1.id) "item updated", db3)
  | _, _ => (.badRequest "valid quantity required", db)

/-- `removeItem`: ownership-checked delete of one cart item row, then
subtotal recompute. -/
def removeItem (db : DB) (uid : Nat) (itemId : Nat) : CartResult × DB :=
  match findItemGlobal db.carts itemId with
  | none => (.notFound "cart item not found", db)
  | some ci =>
    if ci.1.userId ≠ uid then (.notFound "cart item not found", db)
    else
      let db2 : DB := { db with
        carts := db.carts.map fun c =>
          { c with items := c.items.filter fun it => !(it.id == itemId) } }
      let db3 := recalcCart db2 ci.1.id
      (.ok (findCartById db3 ci.1.id) "item removed", db3)

/-- `clearCart`: ensure the cart, delete all of its items, recompute the
subtotal. -/
def clearCart (db : DB) (uid : Nat) (newCartId : Nat) : CartResult × DB :=
  let cdb := ensureCart db uid newCartId
  let db2 : DB := { cdb.2 with carts := deleteCartItems cdb.2.carts cdb.1.id }
  let db3 := recalcCart db2 cdb.1.id
  (.ok (findCartById db3 cdb.1.id) "cart cleared", db3)

/-- The cart returned by a mutation satisfies the subtotal invariant:
its persisted subtotal is the sum of price times quantity over its items. -/
def subtotalInv (r : CartResult × DB) : Prop :=
  ∀ c m, r.1 = .ok (some c) m → c.subtotal = cartSubtotal c.items

/-- A loaded cart item passes `createOrder`'s validation: the product is
ACTIVE and, when stock is tracked, it covers the item quantity. -/
def itemOkB (li : LoadedItem) : Bool :=
  (li.product.status == PStatus.ACTIVE) && !(stockBelow li.product.stock li.item.quantity)

/-- Whether a `createOrder` response is the 201 created case. -/
def isCreatedB : CreateOrderResult → Bool
  | .created _ => true
  | _ => false

/-- A JS number as it matters here: NaN, the infinities, or a finite value.
`Number(queryString)` yields NaN on non-numeric input. -/
inductive JSNum
  | nan
  | posInf
  | negInf
  | num (q : Rat)
deriving DecidableEq, Repr

/-- JS `Math.max` on two arguments: NaN-absorbing, minus-infinity neutral. -/
def jsMax : JSNum → JSNum → JSNum
  | .nan, _ => .nan
  | _, .nan => .nan
  | .posInf, _ => .posInf
  | _, .posInf => .posInf
  | .negInf, x => x
  | x, .negInf => x
  | .num x, .num y => .num (max x y)

/-- JS `Math.min` on two arguments: NaN-absorbing, plus-infinity neutral. -/
def jsMin : JSNum → JSNum → JSNum
  | .nan, _ => .nan
  | _, .nan => .nan
  | .negInf, _ => .negInf
  | _, .negInf => .negInf
  | .posInf, x => x
  | x, .posInf => x
  | .num x, .num y => .num (min x y)

/-- `getAllProducts`: `const pageNum = Math.max(1, Number(page))` with the
destructuring default `page = 1` when the query parameter is absent. -/
def pageNum (page? : Option JSNum) : JSNum :=
  jsMax (.num 1) (page?.getD (.num 1))

/-- `getAllProducts`:
`const limitNum = Math.min(Math.max(1, Number(limit)), 100)` with the
destructuring default `limit = 100` when the query parameter is absent. -/
def limitNum (limit? : Option JSNum) : JSNum :=
  jsMin (jsMax (.num 1) (limit?.getD (.num 100))) (.num 100)

/-- The effective page size is a finite number between 1 and 100. -/
def inPageRange : JSNum → Bool
  | .num q => decide (1 ≤ q) && decide (q ≤ 100)
  | _ => false

/-- The effective page number is at least 1 (positive infinity counts as
at least 1; NaN does not). -/
def pageAtLeast1 : JSNum → Bool
  | .num q => decide (1 ≤ q)
  | .posInf => true
  | _ => false

/-- A stored bcrypt digest, abstracted by its preimage: the hashing library
is an external collaborator whose contract is that `compare(s, hash(t))`
succeeds exactly when `s = t`. -/
inductive HashVal
  | hashOf (preimage : String)
deriving DecidableEq, Repr

/-- `bcrypt.compare(s, digest)`. -/
def bcryptCompare (s : String) : HashVal → Bool
  | .hashOf t => s == t

structure UserRec where
  id : Nat
  number : String
  userName : String
  password : HashVal
deriving DecidableEq, Repr

structure AuthDB where
  users : List UserRec
deriving DecidableEq, Repr

inductive AuthResult
  | validationError (msg : String)
  | conflict (msg : String)
  | unauthorized (msg : String)
  | success (userId : Nat) (tokenFor : Nat)
deriving DecidableEq, Repr

/-- JS truthiness of an optional string request field (`!number`). -/
def strPresent : Option String → Bool
  | none => false
  | some s => !s.isEmpty

/-- `register` from src/controllers/authController.ts: the handler
destructures only `number` and `userName` from the body, requires `number`,
rejects a duplicate number, stores `bcrypt.hash(number, 10)` as the password
hash (the request's password field is never read), and signs a token for the
new user id. -/
def register (db : AuthDB) (number? password? : Option String) (userName : String)
    (newId : Nat) : AuthResult × AuthDB :=
  if !(strPresent number?) then (.validationError "number and password are required", db)
  else
    let number := number?.getD ""
    match db.users.find? (fun u => u.number == number) with
    | some _ => (.conflict "number already in use", db)
    | none =>
      let u : UserRec :=
        { id := newId, number := number, userName := userName
          password := HashVal.hashOf number }
      (.success newId newId, { db with users := db.users ++ [u] })

/-- `login` from src/controllers/authController.ts: the handler destructures
only `number` from the body, looks the user up by number, and runs
`bcrypt.compare(number, user.password)` — the request's password field is
never read — issuing a signed token on success. -/
def login (db : AuthDB) (number? password? : Option String) : AuthResult × AuthDB :=
  if !(strPresent number?) then (.validationError "number and password are required", db)
  else
    let number := number?.getD ""
    match db.users.find? (fun u => u.number == number) with
    | none => (.unauthorized "invalid credentials", db)
    | some u =>
      if bcryptCompare number u.password then (.success u.id u.id, db)
      else (.unauthorized "invalid credentials", db)

end Shop

namespace Shop

/-- C2: for every user whose cart does not exist or has zero items,
`createOrder` fails with the empty-cart client error, creates no Order, and
leaves the persistent state unchanged. -/
theorem createOrder_empty_cart (db : DB) (uid : Nat) (onum : String) (oid : Nat)
    (ship : Option Int) (cname : Option String)
    (h : findCart db uid = none ∨ ∃ cart, findCart db uid = some cart ∧ cart.items = []) :
    createOrder db uid onum oid ship cname = (.emptyCart, db) := by
  unfold createOrder
  rcases h with h | ⟨cart, hc, hi⟩
  · rw [h]
  · rw [hc]
    simp [hi]

def dbNoCart : DB := { products := [], carts := [], orders := [] }

/-- Witness for C2 at a database without any cart for the user. -/
theorem createOrder_empty_cart_witness :
    createOrder dbNoCart 1 "ORD-1" 7 none none = (.emptyCart, dbNoCart) :=
  createOrder_empty_cart dbNoCart 1 "ORD-1" 7 none none (Or.inl rfl)

/-- C7: `getOrderById` returns an order only when it is owned by the
requesting user; when every order carrying the requested id belongs to a
different user, the handler answers NotFound and exposes no order data. -/
theorem getOrder_ownership (db : DB) (uid oid : Nat) :
    (getOrderById db uid oid ≠ .notFound →
      ownerOf (getOrderById db uid oid) = some uid ∧
      orderIdOf (getOrderById db uid oid) = some oid) ∧
    ((db.orders.all fun o => !(o.id == oid) || !(o.userId == uid)) = true →
      getOrderById db uid oid = .notFound) := by
  constructor
  · intro hne
    unfold getOrderById at hne ⊢
    cases hfind : db.orders.find? (fun o => o.id == oid && o.userId == uid) with
    | none => rw [hfind] at hne; exact absurd rfl hne
    | some o =>
      have hp := List.find?_some hfind
      simp only [Bool.and_eq_true, beq_iff_eq] at hp
      simp [ownerOf, orderIdOf, hp.1, hp.2]
  · intro hall
    unfold getOrderById
    cases hfind : db.orders.find? (fun o => o.id == oid && o.userId == uid) with
    | none => rfl
    | some o =>
      have hp := List.find?_some hfind
      have hm := List.mem_of_find?_eq_some hfind
      rw [List.all_eq_true] at hall
      have h2 := hall o hm
      simp only [Bool.and_eq_true, beq_iff_eq] at hp
      simp only [Bool.or_eq_true, Bool.not_eq_true', beq_eq_false_iff_ne, ne_eq] at h2
      rcases h2 with h2 | h2
      · exact absurd hp.1 h2
      · exact absurd hp.2 h2

def ordW : Order :=
  { id := 5, orderNumber := "ORD-5", userId := 1, customerName := "User"
    subtotal := 3, tax := 0, shipping := 0, discount := 0, total := 3, items := [] }

def dbOrd : DB := { products := [], carts := [], orders := [ordW] }

/-- Witness for C7: the owner retrieves the order, a different user gets
NotFound. -/
theorem getOrder_ownership_witness :
    ownerOf (getOrderById dbOrd 1 5) = some 1 ∧ getOrderById dbOrd 2 5 = .notFound :=
  ⟨((getOrder_ownership dbOrd 1 5).1 (by decide)).1,
   (getOrder_ownership dbOrd 2 5).2 (by decide)⟩

/-- C8 counterexample: a listing request whose limit (or page) query value
converts to NaN — e.g. `?limit=abc` — is not clamped into the 1..100 range:
the computed page size is NaN, so the claim fails as universally stated. -/
theorem limit_nan_not_clamped :
    inPageRange (limitNum (some .nan)) = false ∧
    pageAtLeast1 (pageNum (some .nan)) = false := by
  decide

/-- C8 amended: for every listing request whose limit and page query values
do not convert to NaN, the effective page size is a number clamped into
1..100 (in particular limit=1000 yields 100) and the effective page number
is at least 1. -/
theorem limit_page_clamped (l p : Option JSNum)
    (hl : l ≠ some .nan) (hp : p ≠ some .nan) :
    inPageRange (limitNum l) = true ∧ pageAtLeast1 (pageNum p) = true ∧
    limitNum (some (.num 1000)) = .num 100 := by
  refine ⟨?_, ?_, by decide⟩
  · match l with
    | none => decide
    | some .nan => exact absurd rfl hl
    | some .posInf => decide
    | some .negInf => decide
    | some (.num q) =>
      simp only [limitNum, Option.getD_some, jsMax, jsMin, inPageRange,
        Bool.and_eq_true, decide_eq_true_eq]
      exact ⟨le_min (le_max_left 1 q) (by norm_num), min_le_right _ _⟩
  · match p with
    | none => decide
    | some .nan => exact absurd rfl hp
    | some .posInf => decide
    | some .negInf => decide
    | some (.num q) =>
      simp only [pageNum, Option.getD_some, jsMax, pageAtLeast1, decide_eq_true_eq]
      exact le_max_left 1 q

/-- Witness for the amended C8 at limit=1000 and page=7. -/
theorem limit_page_clamped_witness :
    inPageRange (limitNum (some (.num 1000))) = true ∧
    pageAtLeast1 (pageNum (some (.num 7))) = true :=
  ⟨(limit_page_clamped (some (.num 1000)) (some (.num 7)) (by decide) (by decide)).1,
   (limit_page_clamped (some (.num 1000)) (some (.num 7)) (by decide) (by decide)).2.1⟩

def authDb0 : AuthDB := { users := [] }

/-- C9 evaluation at the failing input: registering number 1234567890 with
password "correct horse" stores a hash of the number itself, and a login
presenting that number with the wrong password "totally-wrong" still
succeeds and obtains a signed token — the handlers never read the password
field, contradicting their own documentation and error messages. -/
theorem login_succeeds_with_wrong_password :
    (register authDb0 (some "1234567890") (some "correct horse") "John" 1).1 =
      .success 1 1 ∧
    (login (register authDb0 (some "1234567890") (some "correct horse") "John" 1).2
        (some "1234567890") (some "totally-wrong")).1 = .success 1 1 := by
  constructor
  · rfl
  · rfl

/-- Any cart found by id right after `recalcCart` of that id carries the
recomputed subtotal of its own items. -/
theorem subtotal_of_recalc (db : DB) (cid : Nat) (c : Cart)
    (h : findCartById (recalcCart db cid) cid = some c) :
    c.subtotal = cartSubtotal c.items := by
  unfold findCartById recalcCart at h
  simp only at h
  have hpred := List.find?_some h
  have hmem := List.mem_of_find?_eq_some h
  simp only [List.mem_map] at hmem
  obtain ⟨c0, _, heq⟩ := hmem
  by_cases h0 : (c0.id == cid) = true
  · rw [if_pos h0] at heq
    subst heq
    rfl
  · rw [if_neg h0] at heq
    subst heq
    exact absurd hpred h0

/-- C5: after every completed cart mutation — addItem, updateItem,
removeItem, clearCart — the cart returned by the handler carries a persisted
subtotal equal to the sum of price times quantity over its current items
(zero when empty), because each mutation ends by re-reading all current
items and recomputing the subtotal from them. -/
theorem cart_mutations_subtotal (db : DB) (uid : Nat) (pid? : Option Nat)
    (q? : Option Int) (itemId? : Option Nat) (itemId cidNew iidNew : Nat) :
    subtotalInv (addItem db uid pid? q? cidNew iidNew) ∧
    subtotalInv (updateItem db uid itemId? q?) ∧
    subtotalInv (removeItem db uid itemId) ∧
    subtotalInv (clearCart db uid cidNew) := by
  refine ⟨?_, ?_, ?_, ?_⟩ <;> intro c m heq
  · unfold addItem at heq
    split at heq
    · exact absurd heq (by simp)
    · dsimp only at heq
      split at heq
      · exact absurd heq (by simp)
      · split at heq
        · exact absurd heq (by simp)
        · split at heq
          · exact absurd heq (by simp)
          · split at heq
            · split at heq
              · exact absurd heq (by simp)
              · obtain ⟨h1, -⟩ := CartResult.ok.inj heq
                exact subtotal_of_recalc _ _ _ h1
            · obtain ⟨h1, -⟩ := CartResult.ok.inj heq
              exact subtotal_of_recalc _ _ _ h1
  · unfold updateItem at heq
    split at heq
    · split at heq
      · exact absurd heq (by simp)
      · split at heq
        · exact absurd heq (by simp)
        · split at heq
          · exact absurd heq (by simp)
          · split at heq
            · exact absurd heq (by simp)
            · split at heq
              · exact absurd heq (by simp)
              · obtain ⟨h1, -⟩ := CartResult.ok.inj heq
                exact subtotal_of_recalc _ _ _ h1
    · exact absurd heq (by simp)
  · unfold removeItem at heq
    split at heq
    · exact absurd heq (by simp)
    · split at heq
      · exact absurd heq (by simp)
      · obtain ⟨h1, -⟩ := CartResult.ok.inj heq
        exact subtotal_of_recalc _ _ _ h1
  · unfold clearCart at heq
    obtain ⟨h1, -⟩ := CartResult.ok.inj heq
    exact subtotal_of_recalc _ _ _ h1

def pW : Product :=
  { id := 10, name := "widget", price := 3, stock := some 7, status := .ACTIVE }

def dbAdd : DB := { products := [pW], carts := [], orders := [] }

def cartAfterAdd : Cart :=
  { id := 5, userId := 1
    items := [{ id := 6, productId := 10, quantity := 2, price := 3 }]
    subtotal := 6 }

/-- Witness for C5: a concrete addItem returns a cart whose persisted
subtotal matches the recomputed sum over its items. -/
theorem cart_mutations_subtotal_witness :
    (addItem dbAdd 1 (some 10) (some 2) 5 6).1 = .ok (some cartAfterAdd) "item added" ∧
    cartAfterAdd.subtotal = cartSubtotal cartAfterAdd.items :=
  ⟨by decide,
   (cart_mutations_subtotal dbAdd 1 (some 10) (some 2) none 0 5 6).1
     cartAfterAdd "item added" (by decide)⟩

/-- `loadItems` succeeds with one loaded row per cart item, in order. -/
theorem loadItems_items (db : DB) :
    ∀ l ls, loadItems db l = some ls → ls.map LoadedItem.item = l := by
  intro l
  induction l with
  | nil => intro ls h; cases h; rfl
  | cons it rest ih =>
    intro ls h
    unfold loadItems at h
    cases hfp : findProduct db it.productId with
    | none => rw [hfp] at h; cases h
    | some p =>
      rw [hfp] at h
      cases hrest : loadItems db rest with
      | none => rw [hrest] at h; cases h
      | some ls' =>
        rw [hrest] at h
        cases h
        simpa using ih ls' hrest

/-- Each loaded row's product is the product row its cart item points at. -/
theorem loadItems_product (db : DB) :
    ∀ l ls, loadItems db l = some ls →
      ∀ li ∈ ls, findProduct db li.item.productId = some li.product := by
  intro l
  induction l with
  | nil => intro ls h li hm; cases h; cases hm
  | cons it rest ih =>
    intro ls h li hm
    unfold loadItems at h
    cases hfp : findProduct db it.productId with
    | none => rw [hfp] at h; cases h
    | some p =>
      rw [hfp] at h
      cases hrest : loadItems db rest with
      | none => rw [hrest] at h; cases h
      | some ls' =>
        rw [hrest] at h
        cases h
        rcases List.mem_cons.mp hm with rfl | hm'
        · exact hfp
        · exact ih ls' hrest li hm'

/-- A loaded row passes the per-item validation iff it is ACTIVE with
covering stock. -/
theorem itemIssue_eq_none_iff (li : LoadedItem) :
    itemIssue li = none ↔ itemOkB li = true := by
  unfold itemIssue itemOkB stockBelow
  by_cases hs : li.product.status = PStatus.ACTIVE
  · simp only [hs, ne_eq, not_true_eq_false, if_false, beq_self_eq_true, Bool.true_and]
    cases hst : li.product.stock with
    | none => simp
    | some s =>
      by_cases hlt : s < li.item.quantity
      · simp [hlt]
      · simp [hlt]
  · simp only [ne_eq, hs, not_false_eq_true, if_true]
    simp [hs]

/-- When every loaded row validates, the validation loop passes. -/
theorem firstIssue_eq_none (ls : List LoadedItem)
    (h : ∀ li ∈ ls, itemOkB li = true) : firstIssue ls = none := by
  induction ls with
  | nil => rfl
  | cons li rest ih =>
    unfold firstIssue
    rw [(itemIssue_eq_none_iff li).mpr (h li (List.mem_cons_self li rest))]
    exact ih fun x hx => h x (List.mem_cons_of_mem li hx)

/-- When some loaded row fails validation, the loop reports the issue of
some failing row. -/
theorem firstIssue_eq_some (ls : List LoadedItem)
    (h : ls.any (fun li => !(itemOkB li)) = true) :
    ∃ e, firstIssue ls = some e ∧ ls.any (fun li => itemIssue li == some e) = true := by
  induction ls with
  | nil => cases h
  | cons li rest ih =>
    cases hi : itemIssue li with
    | some e =>
      refine ⟨e, ?_, ?_⟩
      · unfold firstIssue; rw [hi]
      · simp [hi]
    | none =>
      have hok : itemOkB li = true := (itemIssue_eq_none_iff li).mp hi
      have hrest : rest.any (fun li => !(itemOkB li)) = true := by
        simp only [List.any_cons, hok, Bool.not_true, Bool.false_or] at h
        exact h
      obtain ⟨e, h1, h2⟩ := ih hrest
      refine ⟨e, ?_, ?_⟩
      · unfold firstIssue; rw [hi]; exact h1
      · simp only [List.any_cons, h2, Bool.or_true]

/-- An issue reported by the validation loop is never the created case. -/
theorem itemIssue_not_created (li : LoadedItem) (e : CreateOrderResult)
    (h : itemIssue li = some e) : isCreatedB e = false := by
  unfold itemIssue at h
  split at h
  · cases h; rfl
  · split at h
    · split at h
      · cases h; rfl
      · cases h
    · cases h

/-- After deleting a cart's items and zeroing its subtotal, every cart row
with that id is empty with zero subtotal. -/
theorem cartsCleared_of_clear (dbx : DB) (cs : List Cart) (cid : Nat)
    (h : dbx.carts = setCartSubtotal (deleteCartItems cs cid) cid 0) :
    cartsClearedB dbx cid = true := by
  unfold cartsClearedB
  rw [h, List.all_eq_true]
  intro c hm
  unfold setCartSubtotal deleteCartItems at hm
  simp only [List.mem_map] at hm
  obtain ⟨c1, ⟨c0, hm0, heq0⟩, heq1⟩ := hm
  by_cases h0 : (c0.id == cid) = true
  · rw [if_pos h0] at heq0
    rw [← heq0] at heq1
    rw [if_pos h0] at heq1
    rw [← heq1]
    simp
  · rw [if_neg h0] at heq0
    rw [← heq0] at heq1
    rw [if_neg h0] at heq1
    rw [← heq1]
    simp [h0]

/-- C1: for every nonempty cart whose items all reference ACTIVE products
with covering tracked stock, `createOrder` creates exactly one Order, whose
total is the sum over cart items of the snapshot price times quantity (the
price recorded on the cart item, not the live product price), whose
OrderItems count equals the cart's item count, and afterwards every cart row
with the cart's id has zero items and zero subtotal. -/
theorem createOrder_success (db : DB) (uid : Nat) (onum : String) (oid : Nat)
    (ship : Option Int) (cname : Option String) (cart : Cart) (loaded : List LoadedItem)
    (hc : findCart db uid = some cart)
    (hne : cart.items ≠ [])
    (hl : loadItems db cart.items = some loaded)
    (hv : ∀ li ∈ loaded, itemOkB li = true) :
    (createOrder db uid onum oid ship cname).1 =
        .created (mkOrder uid onum oid ship cname cart.items loaded) ∧
    (createOrder db uid onum oid ship cname).2.orders =
        db.orders ++ [mkOrder uid onum oid ship cname cart.items loaded] ∧
    (mkOrder uid onum oid ship cname cart.items loaded).total = cartSubtotal cart.items ∧
    (mkOrder uid onum oid ship cname cart.items loaded).items.length = cart.items.length ∧
    cartsClearedB (createOrder db uid onum oid ship cname).2 cart.id = true := by
  have hlen : ¬(cart.items.length = 0) := fun h => hne (List.length_eq_zero.mp h)
  have hfi : firstIssue loaded = none := firstIssue_eq_none loaded hv
  have hll : loaded.length = cart.items.length := by
    rw [← loadItems_items db cart.items loaded hl, List.length_map]
  unfold createOrder
  rw [hc]
  simp only [if_neg hlen, hl, hfi]
  refine ⟨trivial, trivial, ?_, ?_, ?_⟩
  · simp [mkOrder]
  · simp [mkOrder, mkOrderItems, hll]
  · exact cartsCleared_of_clear _ db.carts cart.id rfl

def pA : Product := { id := 10, name := "widget", price := 2, stock := some 7, status := .ACTIVE }

def pB : Product := { id := 11, name := "gadget", price := 4, stock := none, status := .ACTIVE }

def itA : CartItem := { id := 100, productId := 10, quantity := 2, price := 2 }

def itB : CartItem := { id := 101, productId := 11, quantity := 3, price := 4 }

def cartW : Cart := { id := 50, userId := 1, items := [itA, itB], subtotal := 16 }

def dbW : DB := { products := [pA, pB], carts := [cartW], orders := [] }

def loadedW : List LoadedItem := [⟨itA, pA⟩, ⟨itB, pB⟩]

/-- Witness for C1 at a two-item cart. -/
theorem createOrder_success_witness :
    (createOrder dbW 1 "ORD-1" 7 none none).1 =
        .created (mkOrder 1 "ORD-1" 7 none none cartW.items loadedW) ∧
    (createOrder dbW 1 "ORD-1" 7 none none).2.orders =
        dbW.orders ++ [mkOrder 1 "ORD-1" 7 none none cartW.items loadedW] ∧
    (mkOrder 1 "ORD-1" 7 none none cartW.items loadedW).total = cartSubtotal cartW.items ∧
    (mkOrder 1 "ORD-1" 7 none none cartW.items loadedW).items.length = cartW.items.length ∧
    cartsClearedB (createOrder dbW 1 "ORD-1" 7 none none).2 cartW.id = true :=
  createOrder_success dbW 1 "ORD-1" 7 none none cartW loadedW rfl (by decide) rfl (by decide)

/-- C3: when some cart item's product is inactive or has tracked stock below
the item quantity, `createOrder` leaves the database unchanged (no Order, no
OrderItems, no stock or cart change), does not report success, and the error
it returns is exactly the per-item issue — ProductUnavailable or
InsufficientStock naming the product — of one of the offending items. -/
theorem createOrder_validation_failure (db : DB) (uid : Nat) (onum : String) (oid : Nat)
    (ship : Option Int) (cname : Option String) (cart : Cart) (loaded : List LoadedItem)
    (hc : findCart db uid = some cart)
    (hne : cart.items ≠ [])
    (hl : loadItems db cart.items = some loaded)
    (hviol : loaded.any (fun li => !(itemOkB li)) = true) :
    (createOrder db uid onum oid ship cname).2 = db ∧
    isCreatedB (createOrder db uid onum oid ship cname).1 = false ∧
    loaded.any
      (fun li => itemIssue li == some (createOrder db uid onum oid ship cname).1) = true := by
  obtain ⟨e, hfi, hany⟩ := firstIssue_eq_some loaded hviol
  have hlen : ¬(cart.items.length = 0) := fun h => hne (List.length_eq_zero.mp h)
  have hnc : isCreatedB e = false := by
    rw [List.any_eq_true] at hany
    obtain ⟨li, -, hli⟩ := hany
    exact itemIssue_not_created li e (by simpa using hli)
  unfold createOrder
  rw [hc]
  simp only [if_neg hlen, hl, hfi]
  exact ⟨trivial, hnc, hany⟩

def pC : Product := { id := 12, name := "retired", price := 5, stock := some 10, status := .ARCHIVED }

def itC : CartItem := { id := 102, productId := 12, quantity := 1, price := 5 }

def cartV : Cart := { id := 51, userId := 2, items := [itC], subtotal := 5 }

def dbV : DB := { products := [pC], carts := [cartV], orders := [] }

def loadedV : List LoadedItem := [⟨itC, pC⟩]

/-- Witness for C3 at a cart holding an archived product. -/
theorem createOrder_validation_failure_witness :
    (createOrder dbV 2 "ORD-2" 8 none none).2 = dbV ∧
    isCreatedB (createOrder dbV 2 "ORD-2" 8 none none).1 = false ∧
    loadedV.any
      (fun li => itemIssue li == some (createOrder dbV 2 "ORD-2" 8 none none).1) = true :=
  createOrder_validation_failure dbV 2 "ORD-2" 8 none none cartV loadedV rfl (by decide) rfl
    (by decide)

/-- Updating the stock of a different product id leaves the lookup of `pid`
unchanged. -/
theorem find?_updateStock_ne (ps : List Product) (pid2 : Nat) (v : Int) (pid : Nat)
    (h : pid2 ≠ pid) :
    (updateStock ps pid2 v).find? (fun q => q.id == pid) =
      ps.find? (fun q => q.id == pid) := by
  induction ps with
  | nil => rfl
  | cons p0 rest ih =>
    unfold updateStock at ih ⊢
    simp only [List.map_cons]
    by_cases h0 : (p0.id == pid2) = true
    · rw [if_pos h0]
      have hne : ¬((p0.id == pid) = true) := by
        simp only [beq_iff_eq] at h0 ⊢
        intro hx
        exact h (by rw [← h0, hx])
      rw [List.find?_cons_of_neg (p := fun (q : Product) => q.id == pid) _ (by simpa using hne),
        List.find?_cons_of_neg (p := fun (q : Product) => q.id == pid) _ hne]
      exact ih
    · rw [if_neg h0]
      by_cases h1 : (p0.id == pid) = true
      · rw [List.find?_cons_of_pos (p := fun (q : Product) => q.id == pid) _ h1,
          List.find?_cons_of_pos (p := fun (q : Product) => q.id == pid) _ h1]
      · rw [List.find?_cons_of_neg (p := fun (q : Product) => q.id == pid) _ h1,
          List.find?_cons_of_neg (p := fun (q : Product) => q.id == pid) _ h1]
        exact ih

/-- Updating the stock of the looked-up product id rewrites exactly the row
the lookup returns. -/
theorem find?_updateStock_eq (ps : List Product) (pid : Nat) (v : Int) (p : Product)
    (h : ps.find? (fun q => q.id == pid) = some p) :
    (updateStock ps pid v).find? (fun q => q.id == pid) =
      some { p with stock := some v } := by
  induction ps with
  | nil => cases h
  | cons p0 rest ih =>
    unfold updateStock at ih ⊢
    simp only [List.map_cons]
    by_cases h0 : (p0.id == pid) = true
    · rw [List.find?_cons_of_pos (p := fun (q : Product) => q.id == pid) _ h0] at h
      cases h
      rw [if_pos h0, List.find?_cons_of_pos (p := fun (q : Product) => q.id == pid) _ (by simpa using h0)]
    · rw [List.find?_cons_of_neg (p := fun (q : Product) => q.id == pid) _ h0] at h
      rw [if_neg h0, List.find?_cons_of_neg (p := fun (q : Product) => q.id == pid) _ h0]
      exact ih h

/-- Decrementing stocks of items that all reference other product ids leaves
the lookup of `pid` unchanged. -/
theorem find?_decrementStocks_ne (pid : Nat) :
    ∀ (ls : List LoadedItem) (ps : List Product),
      (∀ li ∈ ls, li.item.productId ≠ pid) →
      (decrementStocks ps ls).find? (fun q => q.id == pid) =
        ps.find? (fun q => q.id == pid) := by
  intro ls
  induction ls with
  | nil => intro ps _; rfl
  | cons li rest ih =>
    intro ps h
    unfold decrementStocks
    rw [ih _ fun x hx => h x (List.mem_cons_of_mem li hx)]
    exact find?_updateStock_ne _ _ _ _ (h li (List.mem_cons_self li rest))

/-- The decrement loop over a concatenation processes the two halves in
sequence. -/
theorem decrementStocks_append (a b : List LoadedItem) :
    ∀ ps, decrementStocks ps (a ++ b) = decrementStocks (decrementStocks ps a) b := by
  induction a with
  | nil => intro ps; rfl
  | cons li rest ih =>
    intro ps
    exact ih _

/-- Shared stock lemma for C4 and C10: after a successful `createOrder`, the
product of a cart item whose product id is unique in the cart carries stock
`max 0 ((old stock or 0) - quantity)`, computed from the snapshot read with
the cart. -/
theorem createOrder_stock_generic (db : DB) (uid : Nat) (onum : String) (oid : Nat)
    (ship : Option Int) (cname : Option String) (cart : Cart) (loaded : List LoadedItem)
    (pid : Nat) (p : Product) (it : CartItem)
    (hc : findCart db uid = some cart)
    (hne : cart.items ≠ [])
    (hl : loadItems db cart.items = some loaded)
    (hv : ∀ li ∈ loaded, itemOkB li = true)
    (hnd : (cart.items.map CartItem.productId).Nodup)
    (hit : it ∈ cart.items) (hpid : it.productId = pid)
    (hp : findProduct db pid = some p) :
    findProduct (createOrder db uid onum oid ship cname).2 pid =
      some { p with stock := some (max 0 (stockOr0 p.stock - it.quantity)) } := by
  have hlen : ¬(cart.items.length = 0) := fun h => hne (List.length_eq_zero.mp h)
  have hfi : firstIssue loaded = none := firstIssue_eq_none loaded hv
  have hmapped := loadItems_items db cart.items loaded hl
  rw [← hmapped] at hit
  obtain ⟨li, hmem, hli⟩ := List.mem_map.mp hit
  have hlp : li.product = p := by
    have h1 := loadItems_product db cart.items loaded hl li hmem
    rw [hli, hpid, hp] at h1
    exact (Option.some.inj h1).symm
  obtain ⟨s, t, hst⟩ := List.append_of_mem hmem
  have hndl : (loaded.map fun x => x.item.productId).Nodup := by
    rw [← hmapped] at hnd
    simpa [List.map_map, Function.comp] using hnd
  rw [hst] at hndl
  simp only [List.map_append, List.map_cons] at hndl
  rw [List.nodup_append] at hndl
  obtain ⟨-, hnd2, hdisj⟩ := hndl
  rw [List.nodup_cons] at hnd2
  have hlipid : li.item.productId = pid := by rw [hli, hpid]
  have hs_ne : ∀ x ∈ s, x.item.productId ≠ pid := by
    intro x hx hcontra
    exact hdisj (List.mem_map_of_mem _ hx)
      (by rw [hcontra, ← hlipid]; exact List.mem_cons_self _ _)
  have ht_ne : ∀ x ∈ t, x.item.productId ≠ pid := by
    intro x hx hcontra
    refine hnd2.1 ?_
    rw [hlipid, ← hcontra]
    exact List.mem_map_of_mem _ hx
  unfold createOrder
  rw [hc]
  simp only [if_neg hlen, hl, hfi]
  show (decrementStocks db.products loaded).find? (fun q => q.id == pid) = _
  rw [hst, decrementStocks_append]
  show (decrementStocks
      (updateStock (decrementStocks db.products s) li.item.productId
        (max 0 (stockOr0 li.product.stock - li.item.quantity))) t).find? _ = _
  rw [find?_decrementStocks_ne pid t _ ht_ne]
  rw [hli, hpid, hlp]
  exact find?_updateStock_eq _ _ _ _
    (by rw [find?_decrementStocks_ne pid s db.products hs_ne]; exact hp)

/-- C4: for every product with tracked stock `s`, after a successful
`createOrder` purchasing quantity `q` of it (taken from the cart item, with
the validation guaranteeing `s ≥ q`), the product's stock equals
`max 0 (s - q)`, which is never negative. -/
theorem createOrder_decrements_stock (db : DB) (uid : Nat) (onum : String) (oid : Nat)
    (ship : Option Int) (cname : Option String) (cart : Cart) (loaded : List LoadedItem)
    (pid : Nat) (p : Product) (it : CartItem) (s : Int)
    (hc : findCart db uid = some cart)
    (hne : cart.items ≠ [])
    (hl : loadItems db cart.items = some loaded)
    (hv : ∀ li ∈ loaded, itemOkB li = true)
    (hnd : (cart.items.map CartItem.productId).Nodup)
    (hit : it ∈ cart.items) (hpid : it.productId = pid)
    (hp : findProduct db pid = some p) (hs : p.stock = some s) :
    findProduct (createOrder db uid onum oid ship cname).2 pid =
      some { p with stock := some (max 0 (s - it.quantity)) } ∧
    0 ≤ max 0 (s - it.quantity) := by
  have h := createOrder_stock_generic db uid onum oid ship cname cart loaded pid p it
    hc hne hl hv hnd hit hpid hp
  rw [hs] at h
  exact ⟨h, le_max_left 0 _⟩

/-- Witness for C4: the widget with stock 7 is bought at quantity 2 and ends
at stock 5. -/
theorem createOrder_decrements_stock_witness :
    findProduct (createOrder dbW 1 "ORD-1" 7 none none).2 10 =
      some { pA with stock := some (max 0 (7 - itA.quantity)) } ∧
    0 ≤ max 0 (7 - itA.quantity) :=
  createOrder_decrements_stock dbW 1 "ORD-1" 7 none none cartW loadedW 10 pA itA 7
    rfl (by decide) rfl (by decide) (by decide) (by decide) rfl rfl rfl

/-- C10 (implicit behavior): a product with null (untracked) stock that is
part of a successful `createOrder` ends with stock `some 0` — the decrement
`Math.max(0, (stock || 0) - quantity)` coalesces null to 0 and writes the
floor back, converting the untracked product into a tracked one with zero
stock instead of leaving stock null. -/
theorem createOrder_untracked_stock_becomes_zero (db : DB) (uid : Nat) (onum : String)
    (oid : Nat) (ship : Option Int) (cname : Option String) (cart : Cart)
    (loaded : List LoadedItem) (pid : Nat) (p : Product) (it : CartItem)
    (hc : findCart db uid = some cart)
    (hne : cart.items ≠ [])
    (hl : loadItems db cart.items = some loaded)
    (hv : ∀ li ∈ loaded, itemOkB li = true)
    (hnd : (cart.items.map CartItem.productId).Nodup)
    (hit : it ∈ cart.items) (hpid : it.productId = pid)
    (hp : findProduct db pid = some p) (hs : p.stock = none)
    (hq : 1 ≤ it.quantity) :
    findProduct (createOrder db uid onum oid ship cname).2 pid =
      some { p with stock := some 0 } := by
  have h := createOrder_stock_generic db uid onum oid ship cname cart loaded pid p it
    hc hne hl hv hnd hit hpid hp
  rw [hs] at h
  have hmax : max 0 (stockOr0 none - it.quantity) = 0 := by
    apply max_eq_left
    show stockOr0 none - it.quantity ≤ 0
    simp only [stockOr0]
    omega
  rwa [hmax] at h

/-- Witness for C10: the gadget with null stock, bought at quantity 3, ends
with stock 0. -/
theorem createOrder_untracked_stock_becomes_zero_witness :
    findProduct (createOrder dbW 1 "ORD-1" 7 none none).2 11 =
      some { pB with stock := some 0 } :=
  createOrder_untracked_stock_becomes_zero dbW 1 "ORD-1" 7 none none cartW loadedW 11 pB itB
    rfl (by decide) rfl (by decide) (by decide) (by decide) rfl rfl rfl (by decide)

/-- A failing search stays failing under a map that preserves the tested
predicate. -/
theorem find?_map_none {α : Type} (g : α → α) (pr : α → Bool)
    (hg : ∀ c, pr (g c) = pr c) (cs : List α) (h : cs.find? pr = none) :
    (cs.map g).find? pr = none := by
  rw [List.find?_eq_none] at h ⊢
  intro x hx
  obtain ⟨c, hc, rfl⟩ := List.mem_map.mp hx
  rw [hg]
  exact h c hc

/-- Searching a concatenation whose first half fails searches the second. -/
theorem find?_append_none {α : Type} (pr : α → Bool) (l1 l2 : List α)
    (h : l1.find? pr = none) : (l1 ++ l2).find? pr = l2.find? pr := by
  rw [List.find?_append, h]
  rfl

/-- A guarded row update is the identity on rows whose id the guard rejects. -/
theorem map_guard_id (cs : List Cart) (cid : Nat) (f : Cart → Cart)
    (h : ∀ c ∈ cs, (c.id == cid) = false) :
    (cs.map fun c => if c.id == cid then f c else c) = cs := by
  induction cs with
  | nil => rfl
  | cons c0 rest ih =>
    simp only [List.map_cons]
    rw [h c0 (List.mem_cons_self c0 rest)]
    simp only [Bool.false_eq_true, if_false]
    rw [ih fun c hc => h c (List.mem_cons_of_mem c0 hc)]

/-- A tracked stock that covers 4 covers 2. -/
theorem stockBelow_false_of_le (st : Option Int) (a b : Int) (hab : a ≤ b)
    (h : stockBelow st b = false) : stockBelow st a = false := by
  cases st with
  | none => rfl
  | some s =>
    simp only [stockBelow, decide_eq_false_iff_not, not_lt] at h ⊢
    omega

/-- Computing `addItem` for a user without a cart, on an ACTIVE product with
stock covering the requested quantity 2: a cart row is created with one cart
item of quantity 2 at the product's price, and the subtotal is recomputed. -/
theorem addItem_fresh (db : DB) (uid pid : Nat) (p : Product) (cid iid : Nat)
    (hfresh : db.carts.find? (fun c => c.id == cid) = none)
    (hnc : findCart db uid = none)
    (hp : findProduct db pid = some p)
    (ha : p.status = PStatus.ACTIVE)
    (hstock : stockBelow p.stock 2 = false) :
    addItem db uid (some pid) (some 2) cid iid =
      (.ok (some { id := cid, userId := uid
                   items := [{ id := iid, productId := pid, quantity := 2, price := p.price }]
                   subtotal := p.price * 2 }) "item added",
       { products := db.products
         carts := db.carts ++
           [{ id := cid, userId := uid
              items := [{ id := iid, productId := pid, quantity := 2, price := p.price }]
              subtotal := p.price * 2 }]
         orders := db.orders }) := by
  have hfreshAll : ∀ c ∈ db.carts, (c.id == cid) = false := by
    rw [List.find?_eq_none] at hfresh
    intro c hc
    simpa using hfresh c hc
  have hq : (max 1 (qtyOr1 (some 2)) : Int) = 2 := by decide
  unfold addItem
  dsimp only
  rw [hq, hp]
  simp only [ha, ne_eq, not_true_eq_false, if_false, hstock, Bool.false_eq_true,
    ensureCart, hnc]
  unfold createCartItemRow recalcCart findCartById
  simp only [List.find?_nil, List.map_append, List.map_cons, List.map_nil,
    beq_self_eq_true, if_true, List.nil_append]
  rw [map_guard_id db.carts cid _ hfreshAll, map_guard_id db.carts cid _ hfreshAll,
    find?_append_none _ db.carts _ hfresh]
  simp [cartSubtotal]

/-- Computing a second `addItem` of quantity 2 against a database whose only
cart row for the user already holds one item of quantity 2 for the same
product: the existing row is merged to quantity 4 when stock covers the
combined quantity, and the request is rejected against the combined
quantity otherwise. -/
theorem addItem_second_merge (db2 : DB) (uid pid : Nat) (p : Product)
    (cid iid1 cid2 iid2 : Nat) (rest : List Cart)
    (hshape : db2.carts = rest ++
      [{ id := cid, userId := uid
         items := [{ id := iid1, productId := pid, quantity := 2, price := p.price }]
         subtotal := p.price * 2 }])
    (hrest : ∀ c ∈ rest, (c.id == cid) = false)
    (hrestu : ∀ c ∈ rest, (c.userId == uid) = false)
    (hp2 : findProduct db2 pid = some p)
    (ha : p.status = PStatus.ACTIVE) :
    (stockBelow p.stock 4 = false →
      addItem db2 uid (some pid) (some 2) cid2 iid2 =
        (.ok (some { id := cid, userId := uid
                     items := [{ id := iid1, productId := pid, quantity := 4, price := p.price }]
                     subtotal := p.price * 4 }) "item added",
         { products := db2.products
           carts := (rest.map fun (c : Cart) =>
               { c with items := c.items.map fun (it : CartItem) =>
                   if it.id == iid1 then { it with quantity := 4, price := p.price } else it }) ++
             [{ id := cid, userId := uid
                items := [{ id := iid1, productId := pid, quantity := 4, price := p.price }]
                subtotal := p.price * 4 }]
           orders := db2.orders })) ∧
    (stockBelow p.stock 2 = false → stockBelow p.stock 4 = true →
      addItem db2 uid (some pid) (some 2) cid2 iid2 =
        (.badRequest "insufficient stock", db2)) := by
  have hq : (max 1 (qtyOr1 (some 2)) : Int) = 2 := by decide
  have hc1 : findCart db2 uid =
      some { id := cid, userId := uid
             items := [{ id := iid1, productId := pid, quantity := 2, price := p.price }]
             subtotal := p.price * 2 } := by
    unfold findCart
    rw [hshape, find?_append_none _ rest _ (List.find?_eq_none.mpr fun c hc => by
      simp [hrestu c hc])]
    simp
  have hrest2 : ∀ c ∈ (rest.map fun (c : Cart) =>
      { c with items := c.items.map fun (it : CartItem) =>
          if it.id == iid1 then { it with quantity := 4, price := p.price } else it }),
      (c.id == cid) = false := by
    intro c hc
    obtain ⟨c0, hc0, rfl⟩ := List.mem_map.mp hc
    exact hrest c0 hc0
  constructor
  · intro h4
    have h2 := stockBelow_false_of_le p.stock 2 4 (by norm_num) h4
    unfold addItem
    dsimp only
    rw [hq, hp2]
    simp only [ha, ne_eq, not_true_eq_false, if_false, h2, Bool.false_eq_true,
      ensureCart, hc1]
    rw [List.find?_cons_of_pos (p := fun (x : CartItem) => x.productId == pid) _ (by simp)]
    dsimp only
    rw [show ((2 : Int) + 2) = 4 from by norm_num]
    simp only [h4, Bool.false_eq_true, if_false]
    unfold updateCartItemRow recalcCart findCartById
    rw [hshape]
    simp only [List.map_append, List.map_cons, List.map_nil, beq_self_eq_true, if_true]
    rw [map_guard_id _ cid _ hrest2,
      find?_append_none _ _ _ (List.find?_eq_none.mpr fun c hc => by simp [hrest2 c hc])]
    simp [cartSubtotal]
  · intro h2 h4
    unfold addItem
    dsimp only
    rw [hq, hp2]
    simp only [ha, ne_eq, not_true_eq_false, if_false, h2, Bool.false_eq_true,
      ensureCart, hc1]
    rw [List.find?_cons_of_pos (p := fun (x : CartItem) => x.productId == pid) _ (by simp)]
    dsimp only
    rw [show ((2 : Int) + 2) = 4 from by norm_num]
    simp [h4]

/-- C6: for a user with no cart and an ACTIVE product, calling addItem with
quantity 2 twice merges into a single CartItem row of quantity 4 (with the
recomputed subtotal) when stock covers the combined quantity 4, rather than
creating two rows; and when tracked stock covers 2 but not the combined 4,
the second call is rejected with the insufficient-stock error against the
combined quantity and leaves the single quantity-2 row unchanged. -/
theorem addItem_twice_merges (db : DB) (uid pid : Nat) (p : Product)
    (cid iid1 cid2 iid2 : Nat)
    (hfresh : db.carts.find? (fun c => c.id == cid) = none)
    (hnc : findCart db uid = none)
    (hp : findProduct db pid = some p)
    (ha : p.status = PStatus.ACTIVE) :
    (stockBelow p.stock 4 = false →
      okCart (addItem (addItem db uid (some pid) (some 2) cid iid1).2 uid (some pid) (some 2)
          cid2 iid2).1 =
        some { id := cid, userId := uid
               items := [{ id := iid1, productId := pid, quantity := 4, price := p.price }]
               subtotal := p.price * 4 }) ∧
    (stockBelow p.stock 2 = false → stockBelow p.stock 4 = true →
      okCart (addItem db uid (some pid) (some 2) cid iid1).1 =
        some { id := cid, userId := uid
               items := [{ id := iid1, productId := pid, quantity := 2, price := p.price }]
               subtotal := p.price * 2 } ∧
      addItem (addItem db uid (some pid) (some 2) cid iid1).2 uid (some pid) (some 2)
          cid2 iid2 =
        (.badRequest "insufficient stock",
         (addItem db uid (some pid) (some 2) cid iid1).2)) := by
  have hfreshAll : ∀ c ∈ db.carts, (c.id == cid) = false := by
    rw [List.find?_eq_none] at hfresh
    intro c hc
    simpa using hfresh c hc
  have hncAll : ∀ c ∈ db.carts, (c.userId == uid) = false := by
    have hx := hnc
    unfold findCart at hx
    rw [List.find?_eq_none] at hx
    intro c hc
    simpa using hx c hc
  refine ⟨?_, ?_⟩
  · intro h4
    have h2 := stockBelow_false_of_le p.stock 2 4 (by norm_num) h4
    rw [addItem_fresh db uid pid p cid iid1 hfresh hnc hp ha h2]
    dsimp only
    have hstep := addItem_second_merge
      { products := db.products
        carts := db.carts ++
          [{ id := cid, userId := uid
             items := [{ id := iid1, productId := pid, quantity := 2, price := p.price }]
             subtotal := p.price * 2 }]
        orders := db.orders } uid pid p cid iid1 cid2 iid2 db.carts rfl hfreshAll hncAll hp ha
    rw [hstep.1 h4]
    rfl
  · intro h2 h4
    have hfirst := addItem_fresh db uid pid p cid iid1 hfresh hnc hp ha h2
    refine ⟨?_, ?_⟩
    · rw [hfirst]
      rfl
    · rw [hfirst]
      dsimp only
      exact (addItem_second_merge
        { products := db.products
          carts := db.carts ++
            [{ id := cid, userId := uid
               items := [{ id := iid1, productId := pid, quantity := 2, price := p.price }]
               subtotal := p.price * 2 }]
          orders := db.orders } uid pid p cid iid1 cid2 iid2 db.carts rfl hfreshAll hncAll
        hp ha).2 h2 h4

def pD : Product := { id := 20, name := "thing", price := 5, stock := some 10, status := .ACTIVE }

def dbM : DB := { products := [pD], carts := [], orders := [] }

def pE : Product := { id := 21, name := "scarce", price := 5, stock := some 3, status := .ACTIVE }

def dbN : DB := { products := [pE], carts := [], orders := [] }

/-- Witness for C6: with stock 10 the double add merges into one row of
quantity 4; with stock 3 (enough for 2, not for 4) the second add is
rejected against the combined quantity. -/
theorem addItem_twice_merges_witness :
    okCart (addItem (addItem dbM 1 (some 20) (some 2) 5 6).2 1 (some 20) (some 2) 7 8).1 =
      some { id := 5, userId := 1
             items := [{ id := 6, productId := 20, quantity := 4, price := pD.price }]
             subtotal := pD.price * 4 } ∧
    addItem (addItem dbN 1 (some 21) (some 2) 5 6).2 1 (some 21) (some 2) 7 8 =
      (.badRequest "insufficient stock", (addItem dbN 1 (some 21) (some 2) 5 6).2) :=
  ⟨(addItem_twice_merges dbM 1 20 pD 5 6 7 8 rfl rfl rfl rfl).1 (by decide),
   ((addItem_twice_merges dbN 1 21 pE 5 6 7 8 rfl rfl rfl rfl).2 (by decide) (by decide)).2⟩

end Shop
